import Mathlib

/-!
Shallow embedding of `src/PredictedProcess.ts`.

The TypeScript class `PredictedProcess` owns a numeric `id`, a `command`
string, and a mutable object `memoizedCache : { [key: string]: PredictedProcess }`.
Its async method `run(signal?)` spawns a child process and settles a promise
from three event handlers (`closeHandler`, `errorHandler`, `abortHandler`);
`memoize()` pre-populates the cache slot for the no-signal key.

JavaScript is single threaded: the body of `run` executes synchronously from
entry up to `await promiseToSend` (the aborted-signal check, the cache lookup,
the spawn, the handler registration and the cache insertion all happen in one
uninterrupted slice), and afterwards each event handler runs as one
uninterrupted slice. We embed this as:
  - `runSync`   : the synchronous slice of `run` (entry up to the `await`);
  - `closeHandler`, `errorHandler`, `abortHandler`, `abortCleanupTimeout` :
    the event-handler slices acting on a pending `Attempt`;
  - `runAwait`  : the resumption of `run` after `promiseToSend` settles
    (the `try`/`catch` around the `await`);
  - `memoize`   : the `memoize()` method.
Promises settle at most once; `settleResolve`/`settleReject` embed that.
Cache values are object identities (`Nat`); the code always stores `this`,
whose identity is the parameter `oid`.
-/

namespace PredictedProcess

/-- An `AbortSignal` as `run` observes it: a reference identity `sid`
(distinct objects have distinct `sid`) plus its `aborted` flag. -/
structure AbortSignal where
  sid : Nat
  aborted : Bool
deriving DecidableEq

/-- JavaScript values thrown/rejected by the code under study. -/
inductive JSError where
  /-- a `DOMException(message, name)` instance -/
  | domException (message : String) (name : String)
  /-- the opaque error object delivered by the child's `error` event -/
  | processError (eid : Nat)
  /-- the `TypeError` produced by evaluating `new error` when the caught
  value `error` is not a constructor (every value above is an instance,
  not a constructor, so `new error` in the `catch` block throws this) -/
  | typeErrorNotACtor
deriving DecidableEq

/-- The state of the `promiseToSend` promise created by `run`. -/
inductive PromiseState where
  | pending
  | resolved
  | rejected (e : JSError)
deriving DecidableEq

/-- `resolve()` is a no-op once the promise has settled. -/
def settleResolve : PromiseState → PromiseState
  | PromiseState.pending => PromiseState.resolved
  | s => s

/-- `reject(e)` is a no-op once the promise has settled. -/
def settleReject (e : JSError) : PromiseState → PromiseState
  | PromiseState.pending => PromiseState.rejected e
  | s => s

/-- Bookkeeping of one started `run` invocation: the local `cacheKey`, the
signal argument, the `promiseToSend` state, and the listener/kill status of
the child spawned by this attempt. `childListenersActive` covers the
`close`/`error` listeners on the child; `abortListenerActive` covers the
`abort` listener installed on the signal. -/
structure Attempt where
  key : String
  signal : Option AbortSignal
  promise : PromiseState
  childKilled : Bool
  childListenersActive : Bool
  abortListenerActive : Bool
deriving DecidableEq

/-- The mutable state of one `PredictedProcess` object: its `memoizedCache`
(association list mirroring the JS object: key to object identity of the
stored `PredictedProcess`) together with an instrumentation counter of how
many times `spawn` has been called. -/
structure CoordState where
  cache : List (String × Nat)
  spawnCount : Nat
deriving DecidableEq

/-- A freshly constructed `PredictedProcess`: empty cache, nothing spawned. -/
def initState : CoordState := { cache := [], spawnCount := 0 }

/-- JS `key in obj`. -/
def cacheHas (c : List (String × Nat)) (k : String) : Bool :=
  c.any (fun p => p.1 == k)

/-- JS `obj[key] = v` (overwrites any previous binding of `key`). -/
def cacheInsert (c : List (String × Nat)) (k : String) (v : Nat) :
    List (String × Nat) :=
  (k, v) :: c.filter (fun p => p.1 != k)

/-- JS `delete obj[key]`. -/
def cacheDelete (c : List (String × Nat)) (k : String) : List (String × Nat) :=
  c.filter (fun p => p.1 != k)

/-- JS `obj[key]` (as an option). -/
def cacheGet (c : List (String × Nat)) (k : String) : Option Nat :=
  (c.find? (fun p => p.1 == k)).map Prod.snd

/-- JS template-literal rendering of `signal?.aborted`: `"undefined"` when
`signal` is absent, otherwise the rendering of the boolean. -/
def abortedField : Option AbortSignal → String
  | none => "undefined"
  | some s => if s.aborted then "true" else "false"

/-- `buildCacheKey(signal)`, i.e. the template literal
combining `this.id`, an underscore and `signal?.aborted`. -/
def buildCacheKey (id : Nat) (signal : Option AbortSignal) : String :=
  toString id ++ "_" ++ abortedField signal

/-- JS truthiness of `signal?.aborted` (`undefined` is falsy). -/
def signalAborted : Option AbortSignal → Bool
  | none => false
  | some s => s.aborted

/-- `handleAbortedSignal()` rejects with this `DOMException`. -/
def handleAbortedSignal : JSError :=
  JSError.domException "Signal already aborted!" "AbortError"

/-- Exit of the synchronous slice of `run`: immediate rejection
(`handleAbortedSignal`), immediate resolution (the bare `return` on a cache
hit), or a started attempt now awaiting `promiseToSend`. -/
inductive SyncOutcome where
  | rejectedBeforeStart (e : JSError)
  | resolvedFromCache
  | started (a : Attempt)
deriving DecidableEq

/-- The synchronous slice of `run(signal)`, from entry to `await promiseToSend`:
reject if `signal?.aborted`; return if `cacheKey in memoizedCache`; otherwise
spawn the child, attach `close`/`error` listeners, call
`handleAbortedSignalTriggeredDuringExecution` (which adds the `abort` listener
when a signal is present and schedules its removal after 5000 ms), and store
`this` under `cacheKey`. (`spawn` always returns a non-null object, so the
`!child` guard in `closeHandler` is never taken.) -/
def runSync (id oid : Nat) (st : CoordState) (signal : Option AbortSignal) :
    SyncOutcome × CoordState :=
  if signalAborted signal then
    (SyncOutcome.rejectedBeforeStart handleAbortedSignal, st)
  else
    let cacheKey := buildCacheKey id signal
    if cacheHas st.cache cacheKey then
      (SyncOutcome.resolvedFromCache, st)
    else
      let a : Attempt :=
        { key := cacheKey
          signal := signal
          promise := PromiseState.pending
          childKilled := false
          childListenersActive := true
          abortListenerActive := signal.isSome }
      (SyncOutcome.started a,
       { cache := cacheInsert st.cache cacheKey oid
         spawnCount := st.spawnCount + 1 })

/-- `closeHandler(event)`: runs only while the `close` listener is attached;
returns without settling unless `event === EXIT_CODE` (`EXIT_CODE = 0`);
on exit code `0` it kills the child, removes all child listeners and resolves. -/
def closeHandler (code : Int) (a : Attempt) : Attempt :=
  if a.childListenersActive then
    if code = 0 then
      { a with
        childKilled := true
        childListenersActive := false
        promise := settleResolve a.promise }
    else a
  else a

/-- `errorHandler(error)`: runs only while the `error` listener is attached;
rejects `promiseToSend` with the error object. -/
def errorHandler (eid : Nat) (a : Attempt) : Attempt :=
  if a.childListenersActive then
    { a with promise := settleReject (JSError.processError eid) a.promise }
  else a

/-- `abortHandler(event)`: runs only while the `abort` listener is attached
to the signal; rejects with a `DOMException` and does nothing else (in
particular it neither kills the child nor removes any listener). -/
def abortHandler (a : Attempt) : Attempt :=
  if a.abortListenerActive then
    { a with
      promise :=
        settleReject (JSError.domException "Signal already aborted" "AbortError")
          a.promise }
  else a

/-- The 5000 ms `setTimeout` callback scheduled by
`handleAbortedSignalTriggeredDuringExecution`: it removes the `abort`
listener from the signal. -/
def abortCleanupTimeout (a : Attempt) : Attempt :=
  { a with abortListenerActive := false }

/-- How the caller of `run` sees the call end. -/
inductive RunOutcome where
  | resolved
  | rejected (e : JSError)
deriving DecidableEq

/-- Evaluation of `new error` in the `catch` block: the caught value is an
instance (a `DOMException`, an `Error` from the `error` event, ...), never a
constructor, so the `new` expression itself throws a `TypeError`. -/
def newError (_e : JSError) : JSError := JSError.typeErrorNotACtor

/-- Resumption of `run` after `await promiseToSend`: nothing happens while the
promise is pending; on resolution `run` resolves with the cache untouched; on
rejection the `catch` block deletes `memoizedCache[cacheKey]` and then
executes `throw new error`. -/
def runAwait (st : CoordState) (a : Attempt) : Option (RunOutcome × CoordState) :=
  match a.promise with
  | PromiseState.pending => none
  | PromiseState.resolved => some (RunOutcome.resolved, st)
  | PromiseState.rejected e =>
      some (RunOutcome.rejected (newError e),
            { st with cache := cacheDelete st.cache a.key })

/-- `memoize()`: computes the literal key `id ++ "_undefined"`, returns the
cached object if the key is present, otherwise stores `this` under the key
and returns the stored object. It never spawns. -/
def memoize (id oid : Nat) (st : CoordState) : Option Nat × CoordState :=
  let cacheKey := toString id ++ "_undefined"
  if cacheHas st.cache cacheKey then
    (cacheGet st.cache cacheKey, st)
  else
    let st' : CoordState := { st with cache := cacheInsert st.cache cacheKey oid }
    (cacheGet st'.cache cacheKey, st')

/-- Global state of one coordinator object: its mutable fields plus the list
of `run` invocations currently suspended on `await promiseToSend`. -/
structure World where
  coord : CoordState
  attempts : List Attempt
deriving DecidableEq

/-- The world right after `new PredictedProcess(id, command)`. -/
def World.init : World := { coord := initState, attempts := [] }

/-- Replace the attempt at position `i` by `f` of it. -/
def modifyAt (f : Attempt → Attempt) : Nat → List Attempt → List Attempt
  | _, [] => []
  | 0, a :: as => f a :: as
  | n + 1, a :: as => a :: modifyAt f n as

/-- One call to `run(signal)` executed up to its `await`: the coordinator
state is updated by `runSync` and, if the call spawned, its attempt joins the
pending list. -/
def applyRunEntry (id oid : Nat) (w : World) (signal : Option AbortSignal) :
    World :=
  let r := runSync id oid w.coord signal
  { coord := r.2
    attempts :=
      match r.1 with
      | SyncOutcome.started a => w.attempts ++ [a]
      | _ => w.attempts }

/-- Apply an event-handler slice to the pending attempt at position `i`. -/
def applyEvent (w : World) (i : Nat) (f : Attempt → Attempt) : World :=
  { w with attempts := modifyAt f i w.attempts }

/-- Resume the `run` call suspended at position `i` when its promise has
settled: the `try`/`catch` around the `await` runs and the call leaves the
pending list. -/
def applyAwait (w : World) (i : Nat) : World :=
  match w.attempts[i]? with
  | none => w
  | some a =>
      match runAwait w.coord a with
      | none => w
      | some r => { coord := r.2, attempts := w.attempts.eraseIdx i }

/-- One event-loop slice of the coordinator: a `run` entry with any signal
(or none), a `memoize()` call, a `close`/`error`/`abort`/timeout event
delivered to a pending attempt, or the resumption of a settled `await`. -/
inductive WStep (id oid : Nat) : World → World → Prop where
  | runEntry (signal : Option AbortSignal) {w : World} :
      WStep id oid w (applyRunEntry id oid w signal)
  | memoizeCall {w : World} :
      WStep id oid w { w with coord := (memoize id oid w.coord).2 }
  | closeEvent (i : Nat) (code : Int) {w : World} :
      WStep id oid w (applyEvent w i (closeHandler code))
  | errorEvent (i eid : Nat) {w : World} :
      WStep id oid w (applyEvent w i (errorHandler eid))
  | abortEvent (i : Nat) {w : World} :
      WStep id oid w (applyEvent w i abortHandler)
  | timeoutEvent (i : Nat) {w : World} :
      WStep id oid w (applyEvent w i abortCleanupTimeout)
  | awaitResume (i : Nat) {w : World} :
      WStep id oid w (applyAwait w i)

/-- Worlds reachable from a fresh coordinator by event-loop slices. -/
inductive Reachable (id oid : Nat) : World → Prop where
  | init : Reachable id oid World.init
  | step {w w' : World} : Reachable id oid w → WStep id oid w w' →
      Reachable id oid w'

/-! Concrete scenario data used in the counterexample-style theorems. -/

/-- A live (non-aborted) signal object. -/
def sigA : AbortSignal := { sid := 0, aborted := false }

/-- A second, distinct live signal object. -/
def sigB : AbortSignal := { sid := 1, aborted := false }

/-- The attempt created by `runSync 1 7 initState (some sigA)`. -/
def attemptA : Attempt :=
  { key := "1_false"
    signal := some sigA
    promise := PromiseState.pending
    childKilled := false
    childListenersActive := true
    abortListenerActive := true }

/-- The coordinator state right after that spawn. -/
def stateA : CoordState := { cache := [("1_false", 7)], spawnCount := 1 }

/-- The attempt created by `runSync 1 7 initState none`. -/
def attemptU : Attempt :=
  { key := "1_undefined"
    signal := none
    promise := PromiseState.pending
    childKilled := false
    childListenersActive := true
    abortListenerActive := false }

/-- The coordinator state right after that spawn. -/
def stateU : CoordState := { cache := [("1_undefined", 7)], spawnCount := 1 }

/-! Helper lemmas about the cache association list. -/

theorem cacheHas_delete_self (c : List (String × Nat)) (k : String) :
    cacheHas (cacheDelete c k) k = false := by
  induction c with
  | nil => rfl
  | cons p c ih =>
      by_cases h : p.1 = k
      · simp only [cacheDelete, List.filter_cons] at ih ⊢
        simp [h, ih]
      · simp only [cacheHas, cacheDelete, List.filter_cons] at ih ⊢
        simp [h, ih]

theorem mem_cacheInsert {c : List (String × Nat)} {k : String} {v : Nat}
    {p : String × Nat} (h : p ∈ cacheInsert c k v) : p = (k, v) ∨ p ∈ c := by
  rcases List.mem_cons.mp h with h | h
  · exact Or.inl h
  · exact Or.inr (List.mem_of_mem_filter h)

theorem mem_cacheDelete {c : List (String × Nat)} {k : String}
    {p : String × Nat} (h : p ∈ cacheDelete c k) : p ∈ c :=
  List.mem_of_mem_filter h

theorem nodupKeys_cacheInsert {c : List (String × Nat)} {k : String} {v : Nat}
    (h : (c.map Prod.fst).Nodup) :
    ((cacheInsert c k v).map Prod.fst).Nodup := by
  simp only [cacheInsert, List.map_cons, List.nodup_cons]
  refine ⟨?_, List.Nodup.sublist ((List.filter_sublist c).map Prod.fst) h⟩
  intro hk
  rcases List.mem_map.mp hk with ⟨p, hp, hpk⟩
  rcases List.mem_filter.mp hp with ⟨_, hne⟩
  rw [hpk] at hne
  simp at hne

theorem nodupKeys_cacheDelete {c : List (String × Nat)} {k : String}
    (h : (c.map Prod.fst).Nodup) :
    ((cacheDelete c k).map Prod.fst).Nodup :=
  List.Nodup.sublist ((List.filter_sublist c).map Prod.fst) h

theorem length_le_two_of_mem_pair {l : List String} {a b : String}
    (hn : l.Nodup) (hm : ∀ x ∈ l, x = a ∨ x = b) : l.length ≤ 2 := by
  classical
  have hcard : l.toFinset.card = l.length := List.toFinset_card_of_nodup hn
  have hsub : l.toFinset ⊆ {a, b} := by
    intro x hx
    rcases hm x (List.mem_toFinset.mp hx) with h | h <;> simp [h]
  have h1 := Finset.card_le_card hsub
  have h2 : ({a, b} : Finset String).card ≤ 2 := by
    refine (Finset.card_insert_le a {b}).trans ?_
    simp
  omega

theorem append_ne_of_length_ne {a b c : String} (h : b.length ≠ c.length) :
    a ++ b ≠ a ++ c := by
  intro he
  apply h
  have hl := congrArg String.length he
  rw [String.length_append, String.length_append] at hl
  omega

/-! Helper lemmas about the embedded operations. -/

/-- A key built while the signal is not aborted is the no-signal key or the
live-signal key. -/
theorem buildCacheKey_of_not_aborted {id : Nat} {signal : Option AbortSignal}
    (h : signalAborted signal = false) :
    buildCacheKey id signal = toString id ++ "_undefined" ∨
      buildCacheKey id signal = toString id ++ "_false" := by
  cases signal with
  | none =>
      left
      show toString id ++ "_" ++ "undefined" = toString id ++ "_undefined"
      rw [String.append_assoc]
      exact congrArg (fun t => toString id ++ t) (by decide)
  | some s =>
      right
      have hs : s.aborted = false := h
      show toString id ++ "_" ++ abortedField (some s) = toString id ++ "_false"
      rw [show abortedField (some s) = "false" by simp [abortedField, hs],
        String.append_assoc]
      exact congrArg (fun t => toString id ++ t) (by decide)

/-- The state component of `runSync`: either untouched, or the key built from
a not-yet-aborted signal was inserted. -/
theorem runSync_cache (id oid : Nat) (st : CoordState)
    (signal : Option AbortSignal) :
    (runSync id oid st signal).2.cache = st.cache ∨
      ((runSync id oid st signal).2.cache =
          cacheInsert st.cache (buildCacheKey id signal) oid ∧
        signalAborted signal = false) := by
  unfold runSync
  by_cases h1 : signalAborted signal
  · simp [h1]
  · by_cases h2 : cacheHas st.cache (buildCacheKey id signal)
    · simp [h1, h2]
    · simp [h1, h2]

/-- The state component of `memoize`: either untouched, or the fixed
no-signal key was inserted. -/
theorem memoize_cache (id oid : Nat) (st : CoordState) :
    (memoize id oid st).2.cache = st.cache ∨
      (memoize id oid st).2.cache =
        cacheInsert st.cache (toString id ++ "_undefined") oid := by
  unfold memoize
  by_cases h : cacheHas st.cache (toString id ++ "_undefined")
  · simp [h]
  · simp [h]

/-- The state component of `runAwait`: either untouched (resolution), or the
attempt's key was deleted (rejection). -/
theorem runAwait_cache {st : CoordState} {a : Attempt}
    {r : RunOutcome × CoordState} (h : runAwait st a = some r) :
    r.2.cache = st.cache ∨ r.2.cache = cacheDelete st.cache a.key := by
  unfold runAwait at h
  cases hp : a.promise <;> rw [hp] at h
  · exact absurd h (by simp)
  · rw [← Option.some.inj h]
    exact Or.inl rfl
  · rw [← Option.some.inj h]
    exact Or.inr rfl

/-- A key the orchestration logic can ever store: the no-signal slot or the
live-signal slot of this coordinator. -/
def goodKey (id : Nat) (k : String) : Prop :=
  k = toString id ++ "_undefined" ∨ k = toString id ++ "_false"

/-- Invariant of the `memoizedCache` contents: every entry carries a good key
and stores the coordinator object itself, and keys are not duplicated. -/
def CacheInv (id oid : Nat) (c : List (String × Nat)) : Prop :=
  (∀ p ∈ c, goodKey id p.1 ∧ p.2 = oid) ∧ (c.map Prod.fst).Nodup

theorem cacheInv_insert {id oid : Nat} {c : List (String × Nat)} {k : String}
    (h : CacheInv id oid c) (hk : goodKey id k) :
    CacheInv id oid (cacheInsert c k oid) := by
  refine ⟨?_, nodupKeys_cacheInsert h.2⟩
  intro p hp
  rcases mem_cacheInsert hp with rfl | hp
  · exact ⟨hk, rfl⟩
  · exact h.1 p hp

theorem cacheInv_delete {id oid : Nat} {c : List (String × Nat)} {k : String}
    (h : CacheInv id oid c) : CacheInv id oid (cacheDelete c k) :=
  ⟨fun p hp => h.1 p (mem_cacheDelete hp), nodupKeys_cacheDelete h.2⟩

theorem cacheInv_step {id oid : Nat} {w w' : World} (hs : WStep id oid w w')
    (ih : CacheInv id oid w.coord.cache) : CacheInv id oid w'.coord.cache := by
  cases hs with
  | runEntry signal =>
      have hc : (applyRunEntry id oid w signal).coord =
          (runSync id oid w.coord signal).2 := rfl
      rw [hc]
      rcases runSync_cache id oid w.coord signal with h | ⟨h, hab⟩
      · rw [h]; exact ih
      · rw [h]
        exact cacheInv_insert ih (buildCacheKey_of_not_aborted hab)
  | memoizeCall =>
      show CacheInv id oid (memoize id oid w.coord).2.cache
      rcases memoize_cache id oid w.coord with h | h
      · rw [h]; exact ih
      · rw [h]
        exact cacheInv_insert ih (Or.inl rfl)
  | closeEvent i code => exact ih
  | errorEvent i eid => exact ih
  | abortEvent i => exact ih
  | timeoutEvent i => exact ih
  | awaitResume i =>
      show CacheInv id oid (applyAwait w i).coord.cache
      unfold applyAwait
      split
      · exact ih
      · split
        · exact ih
        · next a r hr =>
            show CacheInv id oid r.2.cache
            rcases runAwait_cache hr with h | h
            · rw [h]; exact ih
            · rw [h]; exact cacheInv_delete ih

theorem reachable_cacheInv {id oid : Nat} {w : World}
    (h : Reachable id oid w) : CacheInv id oid w.coord.cache := by
  induction h with
  | init =>
      exact ⟨by simp [World.init, initState], by simp [World.init, initState]⟩
  | step hr hs ih => exact cacheInv_step hs ih

/-! Claims. -/

/-- Claim C1 (refuted by the code): with a run in flight for a key, a second
`run` call with the same signal does not join the in-flight promise. The
process is spawned exactly once, but the second call resolves immediately
from the cache while the first attempt is still pending, and when the
in-flight run then fails only the first call rejects — the calls do not
resolve or reject together. -/
theorem second_call_resolves_while_first_pending :
    runSync 1 7 initState (some sigA) = (SyncOutcome.started attemptA, stateA) ∧
    runSync 1 7 stateA (some sigA) = (SyncOutcome.resolvedFromCache, stateA) ∧
    attemptA.promise = PromiseState.pending ∧
    runAwait stateA (errorHandler 3 attemptA) =
      some (RunOutcome.rejected JSError.typeErrorNotACtor,
        { cache := [], spawnCount := 1 }) := by
  decide

/-- Claim C2 (refuted by the code): `buildCacheKey` depends only on
`signal?.aborted`, so two distinct live signal objects collide on the same
key `"1_false"` instead of mapping to distinct keys. -/
theorem buildCacheKey_collides_on_distinct_signals :
    sigA ≠ sigB ∧
    buildCacheKey 1 (some sigA) = buildCacheKey 1 (some sigB) ∧
    buildCacheKey 1 (some sigA) = "1_false" ∧
    buildCacheKey 1 none = "1_undefined" := by
  decide

/-- Claim C3 (refuted by the code): on a non-zero exit code `closeHandler`
returns without settling the promise, so `run` neither rejects with a
process error nor removes the cache entry: the call stays pending for ever
and the entry stays cached. -/
theorem nonzero_exit_is_ignored :
    runSync 1 7 initState none = (SyncOutcome.started attemptU, stateU) ∧
    closeHandler 1 attemptU = attemptU ∧
    runAwait stateU (closeHandler 1 attemptU) = none ∧
    cacheHas stateU.cache (buildCacheKey 1 none) = true := by
  decide

/-- Claim C4 (refuted by the code): `memoize()` itself inserts the no-signal
key, so the first signal-less `run` after it is served from the cache and the
command is never executed: the spawn count stays zero. -/
theorem memoize_prepopulates_so_first_run_never_spawns :
    (memoize 1 7 initState).2 =
      { cache := [("1_undefined", 7)], spawnCount := 0 } ∧
    runSync 1 7 (memoize 1 7 initState).2 none =
      (SyncOutcome.resolvedFromCache,
        { cache := [("1_undefined", 7)], spawnCount := 0 }) := by
  decide

/-- Claim C5 (refuted by the code): when the signal fires during execution
the promise rejects and the cache entry is removed, but `abortHandler` never
kills the child: the spawned process stays alive (and the rejection that
reaches the caller is the `TypeError` from `throw new error`, not the
abort exception). -/
theorem abort_during_execution_never_kills_process :
    runSync 1 7 initState (some sigA) = (SyncOutcome.started attemptA, stateA) ∧
    (abortHandler attemptA).promise =
      PromiseState.rejected
        (JSError.domException "Signal already aborted" "AbortError") ∧
    (abortHandler attemptA).childKilled = false ∧
    runAwait stateA (abortHandler attemptA) =
      some (RunOutcome.rejected JSError.typeErrorNotACtor,
        { cache := [], spawnCount := 1 }) := by
  decide

/-- Claim C6 (refuted by the code): the error event rejects the promise with
the original cause, but the `catch` block executes `throw new error`, so the
caller receives a `TypeError`, not the error object produced by the
process-error event. -/
theorem process_error_cause_is_lost :
    (errorHandler 3 attemptA).promise =
      PromiseState.rejected (JSError.processError 3) ∧
    runAwait stateA (errorHandler 3 attemptA) =
      some (RunOutcome.rejected JSError.typeErrorNotACtor,
        { cache := [], spawnCount := 1 }) ∧
    JSError.typeErrorNotACtor ≠ JSError.processError 3 := by
  decide

/-- Claim C7 (confirmed): for every coordinator state and every signal
already aborted at call time, `run` rejects immediately with the
`handleAbortedSignal` exception, and the state — cache and spawn count —
is returned untouched: no process is spawned and the cache is neither
consulted nor modified (the outcome is the same for every state). -/
theorem run_rejects_already_aborted_signal (id oid : Nat) (st : CoordState)
    (s : AbortSignal) (h : s.aborted = true) :
    runSync id oid st (some s) =
      (SyncOutcome.rejectedBeforeStart handleAbortedSignal, st) := by
  unfold runSync
  simp [signalAborted, h]

theorem run_rejects_already_aborted_signal_witness :
    runSync 1 7 initState (some { sid := 0, aborted := true }) =
      (SyncOutcome.rejectedBeforeStart handleAbortedSignal, initState) :=
  run_rejects_already_aborted_signal 1 7 initState
    { sid := 0, aborted := true } rfl

/-- Claim C8 (refuted by the code): cleanup does not occur on every exit
path. On the error exit path the run completes with the child neither killed
nor detached from its listeners, and the abort subscription on the signal
survives the attempt; even on the successful exit path the abort subscription
outlives process termination — only the 5000 ms timeout removes it. -/
theorem cleanup_skipped_on_failure_paths :
    (errorHandler 3 attemptA).childKilled = false ∧
    (errorHandler 3 attemptA).childListenersActive = true ∧
    (errorHandler 3 attemptA).abortListenerActive = true ∧
    (runAwait stateA (errorHandler 3 attemptA)).isSome = true ∧
    (closeHandler 0 attemptA).childKilled = true ∧
    (closeHandler 0 attemptA).abortListenerActive = true ∧
    (abortCleanupTimeout (closeHandler 0 attemptA)).abortListenerActive =
      false := by
  decide

/-- Claim C9 (confirmed): whenever a started run's promise was rejected —
abort during execution or process error — the resumption of `run` deletes the
cache entry for the attempt's key and rethrows, so an immediately following
`run` call whose signal builds the same key misses the cache and spawns a
fresh process. -/
theorem run_failure_uncaches_and_retry_spawns (id oid : Nat) (st : CoordState)
    (a : Attempt) (e : JSError) (signal : Option AbortSignal)
    (hp : a.promise = PromiseState.rejected e)
    (hk : buildCacheKey id signal = a.key)
    (hab : signalAborted signal = false) :
    ∃ st' : CoordState,
      runAwait st a = some (RunOutcome.rejected (newError e), st') ∧
      cacheHas st'.cache a.key = false ∧
      ∃ a' : Attempt,
        runSync id oid st' signal =
          (SyncOutcome.started a',
           { cache := cacheInsert st'.cache a.key oid,
             spawnCount := st'.spawnCount + 1 }) := by
  refine ⟨{ st with cache := cacheDelete st.cache a.key }, ?_, ?_, ?_⟩
  · unfold runAwait
    rw [hp]
  · exact cacheHas_delete_self st.cache a.key
  · have hmiss : cacheHas (cacheDelete st.cache a.key) a.key = false :=
      cacheHas_delete_self st.cache a.key
    refine ⟨{ key := a.key, signal := signal,
              promise := PromiseState.pending, childKilled := false,
              childListenersActive := true,
              abortListenerActive := signal.isSome }, ?_⟩
    simp only [runSync, hab, Bool.false_eq_true, if_false, hk, hmiss]

theorem run_failure_uncaches_and_retry_spawns_witness :
    ∃ st' : CoordState,
      runAwait { cache := [("1_false", 7)], spawnCount := 1 }
          { key := "1_false", signal := some { sid := 0, aborted := false },
            promise := PromiseState.rejected (JSError.processError 3),
            childKilled := false, childListenersActive := true,
            abortListenerActive := true } =
        some (RunOutcome.rejected (newError (JSError.processError 3)), st') ∧
      cacheHas st'.cache "1_false" = false ∧
      ∃ a' : Attempt,
        runSync 1 7 st' (some { sid := 0, aborted := false }) =
          (SyncOutcome.started a',
           { cache := cacheInsert st'.cache "1_false" 7,
             spawnCount := st'.spawnCount + 1 }) :=
  run_failure_uncaches_and_retry_spawns 1 7
    { cache := [("1_false", 7)], spawnCount := 1 }
    { key := "1_false", signal := some { sid := 0, aborted := false },
      promise := PromiseState.rejected (JSError.processError 3),
      childKilled := false, childListenersActive := true,
      abortListenerActive := true }
    (JSError.processError 3) (some { sid := 0, aborted := false })
    rfl (by decide) rfl

/-- Claim C10 (confirmed): in every reachable world of a coordinator with
identity `id`, every cache entry is keyed by the no-signal string
(`id` followed by `"_undefined"`) or the live-signal string (`id` followed by
`"_false"`) and stores the coordinator object itself; no entry is keyed by
the aborted-signal string (`id` followed by `"_true"`); and the cache holds
at most two entries. -/
theorem cache_holds_only_the_two_good_keys (id oid : Nat) (w : World)
    (h : Reachable id oid w) :
    (∀ p ∈ w.coord.cache,
        (p.1 = toString id ++ "_undefined" ∨ p.1 = toString id ++ "_false") ∧
          p.2 = oid) ∧
    (∀ p ∈ w.coord.cache, p.1 ≠ toString id ++ "_true") ∧
    w.coord.cache.length ≤ 2 := by
  have hinv := reachable_cacheInv h
  refine ⟨hinv.1, ?_, ?_⟩
  · intro p hp
    rcases (hinv.1 p hp).1 with h1 | h1 <;> rw [h1]
    · exact append_ne_of_length_ne (by decide)
    · exact append_ne_of_length_ne (by decide)
  · have hlen := length_le_two_of_mem_pair hinv.2 (fun x hx => by
      rcases List.mem_map.mp hx with ⟨p, hp, rfl⟩
      exact (hinv.1 p hp).1)
    simpa using hlen

theorem cache_holds_only_the_two_good_keys_witness :
    (∀ p ∈ ({ coord := (memoize 1 7 World.init.coord).2,
              attempts := World.init.attempts } : World).coord.cache,
        (p.1 = toString 1 ++ "_undefined" ∨ p.1 = toString 1 ++ "_false") ∧
          p.2 = 7) ∧
    (∀ p ∈ ({ coord := (memoize 1 7 World.init.coord).2,
              attempts := World.init.attempts } : World).coord.cache,
        p.1 ≠ toString 1 ++ "_true") ∧
    ({ coord := (memoize 1 7 World.init.coord).2,
       attempts := World.init.attempts } : World).coord.cache.length ≤ 2 :=
  cache_holds_only_the_two_good_keys 1 7
    { coord := (memoize 1 7 World.init.coord).2,
      attempts := World.init.attempts }
    (Reachable.step Reachable.init WStep.memoizeCall)

end PredictedProcess
